import Mathlib

/-!
Shallow embedding of the SVP (Sega Virtua Processor) subsystem of the
genesis-plus-rs repository, together with theorems settling the claims
about it.

Sources embedded (paths relative to the repository root):
  src/core/cartridge/chips/svp/dma.rs        (SVPDmaController)
  src/core/cartridge/chips/svp/texture.rs    (Texture, TextureCache, TextureUnit)
  src/core/cartridge/chips/svp/processor.rs  (SVPProcessor)
  src/core/cartridge/chips/svp/renderer.rs   (ZBuffer, FrameBuffer, Camera, SVPRenderer)
  src/core/cartridge/chips/svp/mod.rs        (SVP facade)
  src/core/cartridge/chips/mod.rs            (CartridgeChip impl for SVP: save_state / load_state)

Modelling conventions, applied uniformly:
  - machine integers (u8/u16/u32/u24-masked addresses) are Nat; wrapping
    arithmetic is explicit `% 2^w`; bit operations keep the source's
    shifts, ands and ors (Nat.shiftLeft / Nat.land / Nat.lor);
  - i16/i32 quantities are Int; Rust integer division truncates toward
    zero, which is Int.tdiv;
  - fixed-size Rust arrays and Vecs that are only ever indexed become
    total functions Nat -> value together with an explicit length field
    wherever the source consults `.len()`; a Rust in-place element store
    becomes Function.update; a Rust `for` loop that stores elementwise
    becomes a List.foldl over List.range of the same bounds;
  - f32 values are modelled as rationals.  Every f32 operation the claims
    exercise (constants, +, -, *, /, comparisons, clamp, fract/trunc) is
    exact on the rationals; the trigonometric initialisation of the
    camera matrices (Camera::update_view_matrix / update_projection_matrix,
    which take sin/cos/tan of the fov and Euler angles) has no exact
    rational value, so SVPRenderer.new leaves the camera matrices at the
    all-zero value the Rust code starts from before those trigonometric
    updates run.  No claim below depends on the initial camera matrices:
    the renderer claims quantify over arbitrary matrix contents.
-/

namespace GenesisSVP

/-- Truncation toward zero, the semantics of Rust float-to-int casts and
of f32::trunc / f32::fract. -/
def ratTrunc (q : ℚ) : ℤ :=
  if 0 ≤ q then ⌊q⌋ else ⌈q⌉

/-- Rust `f32 as i32` saturates at the i32 range. -/
def ratToI32 (q : ℚ) : ℤ :=
  max (-2147483648) (min 2147483647 (ratTrunc q))

/-- Rust `f32 as u16` saturates at the u16 range. -/
def ratToU16 (q : ℚ) : ℕ :=
  (max 0 (min 65535 (ratTrunc q))).toNat

/-- Rust f32::fract: self - self.trunc(). -/
def ratFract (q : ℚ) : ℚ :=
  q - (ratTrunc q : ℚ)

/-- The inclusive i32 range lo..=hi as a list (empty when lo > hi). -/
def intRangeIncl (lo hi : ℤ) : List ℤ :=
  (List.range (hi + 1 - lo).toNat).map (fun k => lo + (k : ℤ))

/-! ## DMA controller — svp/dma.rs -/

/-- enum DmaDirection (dma.rs). -/
inductive DmaDirection where
  | DramToTexRam
  | TexRamToDram
  deriving DecidableEq, Repr

/-- struct SVPDmaController (dma.rs): source address, destination
address, remaining length, active flag, direction. -/
structure SVPDmaController where
  src_addr : ℕ
  dst_addr : ℕ
  length : ℕ
  active : Bool
  direction : DmaDirection
  deriving DecidableEq, Repr

namespace SVPDmaController

/-- SVPDmaController::new (dma.rs). -/
def new : SVPDmaController :=
  { src_addr := 0, dst_addr := 0, length := 0, active := false
    direction := DmaDirection.DramToTexRam }

/-- SVPDmaController::reset (dma.rs). -/
def reset (_d : SVPDmaController) : SVPDmaController := new

/-- SVPDmaController::set_source (dma.rs): masks to 24 bits. -/
def set_source (d : SVPDmaController) (addr : ℕ) : SVPDmaController :=
  { d with src_addr := addr &&& 0xFFFFFF }

/-- SVPDmaController::set_destination (dma.rs): masks to 24 bits and
derives the direction from whether the destination lies at or above the
texture-memory base. -/
def set_destination (d : SVPDmaController) (addr : ℕ) : SVPDmaController :=
  let a := addr &&& 0xFFFFFF
  { d with dst_addr := a
           direction := if 0x4000 ≤ a then DmaDirection.DramToTexRam
                        else DmaDirection.TexRamToDram }

/-- SVPDmaController::set_length (dma.rs): masks to 15 bits. -/
def set_length (d : SVPDmaController) (len : ℕ) : SVPDmaController :=
  { d with length := len &&& 0x7FFF }

/-- SVPDmaController::start (dma.rs): unconditionally sets active. -/
def start (d : SVPDmaController) : SVPDmaController :=
  { d with active := true }

/-- SVPDmaController::is_active (dma.rs). -/
def is_active (d : SVPDmaController) : Bool := d.active

/-- Accessor used by TextureUnit::invalidate_affected_textures. -/
def source_address (d : SVPDmaController) : ℕ := d.src_addr

/-- SVPDmaController::transfer_cycle (dma.rs).  Moves one 16-bit unit
between working memory (dram, 8192 words) and texture memory (texram,
131072 bytes), returning the updated controller and both memories. -/
def transfer_cycle (d : SVPDmaController) (dram texram : ℕ → ℕ) :
    SVPDmaController × (ℕ → ℕ) × (ℕ → ℕ) :=
  if d.active = false ∨ d.length = 0 then (d, dram, texram)
  else
    let step :
        SVPDmaController × (ℕ → ℕ) × (ℕ → ℕ) :=
      match d.direction with
      | DmaDirection.DramToTexRam =>
        let src_idx := d.src_addr >>> 1
        let dst_idx := d.dst_addr
        let (dram', texram') :=
          if src_idx < 8192 ∧ dst_idx < 131072 - 1 then
            let word := dram src_idx
            (dram,
             Function.update (Function.update texram dst_idx (word % 256))
               (dst_idx + 1) ((word >>> 8) % 256))
          else (dram, texram)
        ({ d with src_addr := (d.src_addr + 2) % 2 ^ 32
                  dst_addr := (d.dst_addr + 2) % 2 ^ 32 }, dram', texram')
      | DmaDirection.TexRamToDram =>
        let src_idx := d.src_addr
        let dst_idx := d.dst_addr >>> 1
        let dram' :=
          if src_idx < 131072 - 1 ∧ dst_idx < 8192 then
            Function.update dram dst_idx
              ((texram (src_idx + 1)) <<< 8 ||| texram src_idx)
          else dram
        ({ d with src_addr := (d.src_addr + 2) % 2 ^ 32
                  dst_addr := (d.dst_addr + 2) % 2 ^ 32 }, dram', texram)
    let d1 := step.1
    let d2 := { d1 with length := d1.length - 1 }
    ({ d2 with active := if d2.length = 0 then false else d2.active },
     step.2.1, step.2.2)

end SVPDmaController

/-! ## Texture unit — svp/texture.rs -/

/-- Rust `i32 as u16`: an integer-to-integer cast wraps modulo 2^16. -/
def intToU16 (z : ℤ) : ℕ := (z % 65536).toNat

/-- enum TextureFormat (texture.rs). -/
inductive TextureFormat where
  | Indexed4
  | Indexed8
  | RGB555
  | RGB565
  deriving DecidableEq, Repr

/-- enum TextureFilter (texture.rs). -/
inductive TextureFilter where
  | Nearest
  | Bilinear
  deriving DecidableEq, Repr

/-- enum TextureWrap (texture.rs). -/
inductive TextureWrap where
  | Repeat
  | Clamp
  | Mirror
  deriving DecidableEq, Repr

/-- struct Texture (texture.rs).  `data` is the pixel Vec as a total
function plus its length `data_len` (the source consults data.len()). -/
structure Texture where
  id : ℕ
  width : ℕ
  height : ℕ
  format : TextureFormat
  data : ℕ → ℕ
  data_len : ℕ
  base_addr : ℕ
  palette : ℕ → ℕ
  palette_len : ℕ
  mip_levels : ℕ
  filter : TextureFilter
  wrap_u : TextureWrap
  wrap_v : TextureWrap

namespace Texture

/-- Texture::new (texture.rs). -/
def new (id width height : ℕ) (format : TextureFormat) (base_addr : ℕ) :
    Texture :=
  { id := id, width := width, height := height, format := format
    data := fun _ => 0, data_len := width * height, base_addr := base_addr
    palette := fun _ => 0
    palette_len := match format with
      | TextureFormat.Indexed4 => 16
      | TextureFormat.Indexed8 => 256
      | _ => 0
    mip_levels := 1, filter := TextureFilter.Nearest
    wrap_u := TextureWrap.Repeat, wrap_v := TextureWrap.Repeat }

/-- Texture::size_bytes (texture.rs). -/
def size_bytes (t : Texture) : ℕ :=
  let pixel_count := t.width * t.height
  match t.format with
  | TextureFormat.Indexed4 => pixel_count / 2
  | TextureFormat.Indexed8 => pixel_count
  | TextureFormat.RGB555 => pixel_count * 2
  | TextureFormat.RGB565 => pixel_count * 2

/-- Texture::apply_wrapping (texture.rs).  i32 `%` is Int.tmod. -/
def apply_wrapping (t : Texture) (u v : ℚ) : ℚ × ℚ :=
  let u_frac := ratFract u
  let v_frac := ratFract v
  let u_wrapped :=
    match t.wrap_u with
    | TextureWrap.Repeat => if 0 ≤ u_frac then u_frac else 1 + u_frac
    | TextureWrap.Clamp => min (max u 0) 1
    | TextureWrap.Mirror =>
      let abs_u := |u_frac|
      if Int.tmod ⌊u_frac⌋ 2 = 0 then abs_u else 1 - abs_u
  let v_wrapped :=
    match t.wrap_v with
    | TextureWrap.Repeat => if 0 ≤ v_frac then v_frac else 1 + v_frac
    | TextureWrap.Clamp => min (max v 0) 1
    | TextureWrap.Mirror =>
      let abs_v := |v_frac|
      if Int.tmod ⌊v_frac⌋ 2 = 0 then abs_v else 1 - abs_v
  (u_wrapped, v_wrapped)

/-- Texture::uv_to_texcoord (texture.rs). -/
def uv_to_texcoord (t : Texture) (u v : ℚ) : ℕ × ℕ :=
  let uv := t.apply_wrapping u v
  let x := ratToU16 (uv.1 * (t.width : ℚ))
  let y := ratToU16 (uv.2 * (t.height : ℚ))
  (min x (t.width - 1), min y (t.height - 1))

/-- Texture::get_pixel (texture.rs). -/
def get_pixel (t : Texture) (x y : ℕ) : ℕ :=
  let idx := y * t.width + x
  if idx < t.data_len then t.data idx else 0

/-- Texture::sample_nearest (texture.rs). -/
def sample_nearest (t : Texture) (u v : ℚ) : ℕ :=
  let xy := t.uv_to_texcoord u v
  t.get_pixel xy.1 xy.2

/-- Texture::wrap_coordinate (texture.rs).  Note that the source matches
on `self.wrap_u` for both axes; the final `as u16` cast wraps mod 2^16. -/
def wrap_coordinate (t : Texture) (coord : ℤ) (mx : ℕ) : ℕ :=
  let max_i : ℤ := (mx : ℤ)
  let wrapped :=
    match t.wrap_u with
    | TextureWrap.Repeat => Int.tmod (Int.tmod coord max_i + max_i) max_i
    | TextureWrap.Clamp => min (max coord 0) (max_i - 1)
    | TextureWrap.Mirror =>
      let period := max_i * 2
      let pos := Int.tmod (Int.tmod coord period + period) period
      if pos < max_i then pos else period - pos - 1
  intToU16 wrapped

/-- Texture::get_pixel_wrapped (texture.rs). -/
def get_pixel_wrapped (t : Texture) (x y : ℤ) : ℕ :=
  t.get_pixel (t.wrap_coordinate x t.width) (t.wrap_coordinate y t.height)

/-- Texture::interpolate_color_u16 (texture.rs).  (The receiver is
unused: the blend does not depend on the texture.) -/
def interpolate_color_u16 (_t : Texture) (c1 c2 : ℕ) (tt : ℚ) : ℕ :=
  let r1 : ℚ := ((c1 >>> 10) &&& 0x1F : ℕ)
  let g1 : ℚ := ((c1 >>> 5) &&& 0x1F : ℕ)
  let b1 : ℚ := (c1 &&& 0x1F : ℕ)
  let r2 : ℚ := ((c2 >>> 10) &&& 0x1F : ℕ)
  let g2 : ℚ := ((c2 >>> 5) &&& 0x1F : ℕ)
  let b2 : ℚ := (c2 &&& 0x1F : ℕ)
  let r := ratToU16 (r1 * (1 - tt) + r2 * tt)
  let g := ratToU16 (g1 * (1 - tt) + g2 * tt)
  let b := ratToU16 (b1 * (1 - tt) + b2 * tt)
  (r <<< 10) ||| (g <<< 5) ||| b

/-- Texture::interpolate_color (texture.rs). -/
def interpolate_color (t : Texture) (c1 c2 : ℕ) (tt : ℚ) : ℕ :=
  if t.format = TextureFormat.RGB555 ∨ t.format = TextureFormat.RGB565 then
    t.interpolate_color_u16 c1 c2 tt
  else
    min (ratToU16 ((c1 : ℚ) * (1 - tt) + (c2 : ℚ) * tt)) 255

/-- Texture::sample_bilinear (texture.rs). -/
def sample_bilinear (t : Texture) (u v : ℚ) : ℕ :=
  let tex_x := u * (t.width : ℚ) - 1/2
  let tex_y := v * (t.height : ℚ) - 1/2
  let x0 : ℤ := ⌊tex_x⌋
  let y0 : ℤ := ⌊tex_y⌋
  let x1 := x0 + 1
  let y1 := y0 + 1
  let fx := ratFract tex_x
  let fy := ratFract tex_y
  let p00 := t.get_pixel_wrapped x0 y0
  let p10 := t.get_pixel_wrapped x1 y0
  let p01 := t.get_pixel_wrapped x0 y1
  let p11 := t.get_pixel_wrapped x1 y1
  let top := t.interpolate_color p00 p10 fx
  let bottom := t.interpolate_color p01 p11 fx
  t.interpolate_color_u16 top bottom fy

/-- Texture::load_from_texram (texture.rs).  The Rust method fills the
pixel Vec elementwise from texture memory and reports success; each
`for` loop becomes a List.foldl over the same index range. -/
def load_from_texram (t : Texture) (texram : ℕ → ℕ) : Bool × Texture :=
  let start := t.base_addr
  let size := t.size_bytes
  if start + size ≤ 131072 then
    let data' :=
      match t.format with
      | TextureFormat.Indexed4 =>
        (List.range size).foldl
          (fun d i =>
            let byte := texram (start + i)
            let idx := i * 2
            let d1 := if idx < t.data_len then
                        Function.update d idx (byte &&& 0x0F) else d
            if idx + 1 < t.data_len then
              Function.update d1 (idx + 1) ((byte >>> 4) &&& 0x0F) else d1)
          t.data
      | TextureFormat.Indexed8 =>
        (List.range size).foldl
          (fun d i =>
            if i < t.data_len then
              Function.update d i (texram (start + i)) else d)
          t.data
      | _ =>
        (List.range (size / 2)).foldl
          (fun d i =>
            let byte_idx := start + i * 2
            if i < t.data_len then
              Function.update d i
                ((texram (byte_idx + 1)) <<< 8 ||| texram byte_idx)
            else d)
          t.data
    (true, { t with data := data' })
  else
    (false, t)

end Texture

/-- struct TextureCache (texture.rs): 16 optional texture slots, an LRU
counter, per-slot timestamps, and hit/miss statistics. -/
structure TextureCache where
  textures : ℕ → Option Texture
  lru_counter : ℕ
  lru_timestamps : ℕ → ℕ
  hit_count : ℕ
  miss_count : ℕ

namespace TextureCache

/-- TextureCache::new (texture.rs). -/
def new : TextureCache :=
  { textures := fun _ => none, lru_counter := 0
    lru_timestamps := fun _ => 0, hit_count := 0, miss_count := 0 }

/-- TextureCache::get (texture.rs): on a hit bumps the slot timestamp,
the LRU counter and the hit count; on a miss bumps the miss count. -/
def get (c : TextureCache) (id : ℕ) : Option Texture × TextureCache :=
  if id < 16 then
    match c.textures id with
    | some t =>
      (some t,
       { c with hit_count := c.hit_count + 1
                lru_timestamps := Function.update c.lru_timestamps id c.lru_counter
                lru_counter := c.lru_counter + 1 })
    | none => (none, { c with miss_count := c.miss_count + 1 })
  else (none, c)

/-- TextureCache::get_mut (texture.rs): like get but without the
hit/miss statistics. -/
def get_mut (c : TextureCache) (id : ℕ) : Option Texture × TextureCache :=
  if id < 16 then
    match c.textures id with
    | some t =>
      (some t,
       { c with lru_timestamps := Function.update c.lru_timestamps id c.lru_counter
                lru_counter := c.lru_counter + 1 })
    | none => (none, c)
  else (none, c)

/-- TextureCache::insert (texture.rs): stores the texture in the slot
indexed by its own id — the cache is direct-mapped by id; no other slot
is ever displaced by an insert. -/
def insert (c : TextureCache) (t : Texture) : Bool × TextureCache :=
  if t.id < 16 then
    (true,
     { c with textures := Function.update c.textures t.id (some t)
              lru_timestamps := Function.update c.lru_timestamps t.id c.lru_counter
              lru_counter := c.lru_counter + 1 })
  else (false, c)

/-- TextureCache::remove (texture.rs). -/
def remove (c : TextureCache) (id : ℕ) : Option Texture × TextureCache :=
  if id < 16 then
    (c.textures id, { c with textures := Function.update c.textures id none })
  else (none, c)

/-- TextureCache::find_lru_slot (texture.rs): the first free slot, or
the first slot with the minimal timestamp.  (Never called anywhere in
the repository: insert is direct-mapped by id.) -/
def find_lru_slot (c : TextureCache) : Option ℕ :=
  if (List.range 16).any (fun i => (c.textures i).isNone) then
    (List.range 16).find? (fun i => (c.textures i).isNone)
  else
    (List.range 16).foldl
      (fun best i =>
        match best with
        | none => some i
        | some b =>
          if c.lru_timestamps i < c.lru_timestamps b then some i else best)
      none

/-- TextureCache::clear (texture.rs). -/
def clear (_c : TextureCache) : TextureCache := new

end TextureCache

/-- struct TextureUnit (texture.rs).  The Arc references to texture
memory and the DMA controller become optional values. -/
structure TextureUnit where
  cache : TextureCache
  texram : Option (ℕ → ℕ)
  dma : Option SVPDmaController
  current_texture : Option ℕ
  active_palette : ℕ → ℕ
  bilinear_enabled : Bool
  mipmapping_enabled : Bool
  anisotropic_level : ℕ
  stat_reg : ℕ
  control_reg : ℕ

namespace TextureUnit

/-- TextureUnit::new (texture.rs). -/
def new : TextureUnit :=
  { cache := TextureCache.new, texram := none, dma := none
    current_texture := none, active_palette := fun _ => 0
    bilinear_enabled := false, mipmapping_enabled := false
    anisotropic_level := 1, stat_reg := 0, control_reg := 0 }

/-- TextureUnit::reset (texture.rs): also drops the texram and DMA
connections. -/
def reset (_u : TextureUnit) : TextureUnit := new

/-- TextureUnit::connect_texram (texture.rs). -/
def connect_texram (u : TextureUnit) (texram : ℕ → ℕ) : TextureUnit :=
  { u with texram := some texram }

/-- TextureUnit::connect_dma (texture.rs).  (Never called anywhere in
the repository.) -/
def connect_dma (u : TextureUnit) (d : SVPDmaController) : TextureUnit :=
  { u with dma := some d }

/-- TextureUnit::load_texture (texture.rs): always loads a 64x64 RGB555
texture whose base address is id * 0x2000. -/
def load_texture (u : TextureUnit) (texture_id : ℕ) : Bool × TextureUnit :=
  match u.texram with
  | some tr =>
    let width := 64
    let height := 64
    let format := TextureFormat.RGB555
    let base_addr := texture_id * 0x2000
    let texture := Texture.new texture_id width height format base_addr
    let lr := texture.load_from_texram tr
    if lr.1 then
      (true, { u with cache := (u.cache.insert lr.2).2 })
    else
      (false, u)
  | none => (false, u)

/-- TextureUnit::bind_texture (texture.rs): records the id, and loads
the texture when the cache lookup misses; ids at or above 16 are
rejected. -/
def bind_texture (u : TextureUnit) (texture_id : ℕ) : Bool × TextureUnit :=
  if texture_id < 16 then
    let u1 := { u with current_texture := some texture_id }
    let gc := u1.cache.get texture_id
    let u2 := { u1 with cache := gc.2 }
    if gc.1.isNone then (true, (u2.load_texture texture_id).2)
    else (true, u2)
  else (false, u)

/-- TextureUnit::unbind_texture (texture.rs). -/
def unbind_texture (u : TextureUnit) : TextureUnit :=
  { u with current_texture := none }

/-- TextureUnit::sample (texture.rs).  The source reads the cache slot
through a shared reference (so get's timestamp bump cannot happen
there); the lookup is modelled read-only, including get's id bound. -/
def sample (u : TextureUnit) (uu vv _lod : ℚ) : ℕ :=
  match u.current_texture with
  | some texture_id =>
    match (if texture_id < 16 then u.cache.textures texture_id else none) with
    | some t =>
      if u.bilinear_enabled ∧ t.filter = TextureFilter.Bilinear then
        t.sample_bilinear uu vv
      else
        t.sample_nearest uu vv
    | none => 0x7C00
  | none => 0x0000

/-- TextureUnit::set_palette_color (texture.rs). -/
def set_palette_color (u : TextureUnit) (index color : ℕ) : TextureUnit :=
  if index < 256 then
    { u with active_palette := Function.update u.active_palette index color }
  else u

/-- TextureUnit::load_palette (texture.rs). -/
def load_palette (u : TextureUnit) (base_addr : ℕ) : Bool × TextureUnit :=
  match u.texram with
  | some tr =>
    let start := base_addr
    if start + 512 ≤ 131072 then
      let pal :=
        (List.range 256).foldl
          (fun p i =>
            let idx := start + i * 2
            Function.update p i ((tr (idx + 1)) <<< 8 ||| tr idx))
          u.active_palette
      (true, { u with active_palette := pal })
    else (false, u)
  | none => (false, u)

/-- TextureUnit::invalidate_affected_textures (texture.rs): walks the 16
slots (bumping timestamps through get_mut as the source does) and
removes every cached texture whose byte range overlaps the range
computed from the DMA controller's current source address and length. -/
def invalidate_affected_textures (u : TextureUnit) (d : SVPDmaController) :
    TextureUnit :=
  let cache' :=
    (List.range 16).foldl
      (fun c i =>
        let gm := c.get_mut i
        match gm.1 with
        | some texture =>
          let tex_start := texture.base_addr
          let tex_end := tex_start + texture.size_bytes
          let dma_start := d.source_address
          let dma_end := dma_start + d.length
          if dma_start < tex_end ∧ tex_start < dma_end then
            (gm.2.remove i).2
          else gm.2
        | none => gm.2)
      u.cache
  { u with cache := cache' }

/-- TextureUnit::process_dma_transfer (texture.rs): only acts when both
a DMA controller and texture memory are connected and the controller is
active.  (Never called anywhere in the repository.) -/
def process_dma_transfer (u : TextureUnit) : TextureUnit :=
  match u.dma, u.texram with
  | some d, some _ => if d.is_active then u.invalidate_affected_textures d else u
  | _, _ => u

/-- TextureUnit::set_anisotropy (texture.rs). -/
def set_anisotropy (u : TextureUnit) (level : ℕ) : TextureUnit :=
  { u with anisotropic_level := min (max level 1) 16 }

/-- TextureUnit::write_register (texture.rs). -/
def write_register (u : TextureUnit) (reg value : ℕ) : TextureUnit :=
  if reg = 0 then
    let u1 := { u with control_reg := value
                       bilinear_enabled := decide ((value &&& 0x0001) ≠ 0)
                       mipmapping_enabled := decide ((value &&& 0x0002) ≠ 0) }
    u1.set_anisotropy (max ((value >>> 2) &&& 0x000F) 1)
  else if reg = 1 then
    (u.load_palette (value * 0x200)).2
  else if reg = 2 then
    (u.bind_texture (value &&& 0x000F)).2
  else u

/-- TextureUnit::read_register (texture.rs). -/
def read_register (u : TextureUnit) (reg : ℕ) : ℕ :=
  if reg = 0 then u.stat_reg
  else if reg = 1 then u.control_reg
  else 0

end TextureUnit

/-! ## RISC processor core — svp/processor.rs -/

/-- enum RenderCmdType (processor.rs). -/
inductive RenderCmdType where
  | DrawPolygon
  | DrawLine
  | ClearFrame
  | Unknown
  deriving DecidableEq, Repr

/-- struct RenderCommand (processor.rs): up to four i16 vertex pairs. -/
structure RenderCommand where
  cmd_type : RenderCmdType
  vertices : List (ℤ × ℤ)
  texture_id : ℕ
  color : ℕ
  z_depth : ℕ

/-- struct SVPProcessor (processor.rs): register file, program counter,
status register, 2048-word code cache, 3-stage pipeline, 128-entry
command buffer with read/write pointers, run state, and the single-slot
render-command handshake. -/
structure SVPProcessor where
  regs : ℕ → ℕ
  pc : ℕ
  sr : ℕ
  code_cache : ℕ → ℕ
  pipeline : ℕ → ℕ
  cmd_buffer : ℕ → ℕ
  cmd_read_ptr : ℕ
  cmd_write_ptr : ℕ
  running : Bool
  halted : Bool
  irq_enabled : Bool
  irq_asserted : Bool
  texture_unit : TextureUnit
  current_cmd : Option RenderCommand
  cmd_ready : Bool

namespace SVPProcessor

/-- SVPProcessor::new (processor.rs). -/
def new : SVPProcessor :=
  { regs := fun _ => 0, pc := 0, sr := 0
    code_cache := fun _ => 0, pipeline := fun _ => 0
    cmd_buffer := fun _ => 0, cmd_read_ptr := 0, cmd_write_ptr := 0
    running := false, halted := false
    irq_enabled := true, irq_asserted := false
    texture_unit := TextureUnit.new
    current_cmd := none, cmd_ready := false }

/-- SVPProcessor::reset (processor.rs). -/
def reset (_p : SVPProcessor) : SVPProcessor := new

/-- SVPProcessor::load_code_cache (processor.rs). -/
def load_code_cache (p : SVPProcessor) : SVPProcessor :=
  { p with code_cache :=
      Function.update (Function.update p.code_cache 0 0x1000) 1 0x1100 }

/-- SVPProcessor::start (processor.rs). -/
def start (p : SVPProcessor) : SVPProcessor :=
  load_code_cache { p with running := true, halted := false, pc := 0 }

/-- SVPProcessor::stop (processor.rs). -/
def stop (p : SVPProcessor) : SVPProcessor :=
  { p with running := false, halted := true }

/-- SVPProcessor::fetch_instruction (processor.rs). -/
def fetch_instruction (p : SVPProcessor) : ℕ :=
  p.code_cache ((p.pc >>> 1) &&& 0x7FF)

/-- SVPProcessor::decode_instruction (processor.rs): identity. -/
def decode_instruction (_p : SVPProcessor) (instr : ℕ) : ℕ := instr

/-- SVPProcessor::update_status_flags (processor.rs).  `result` is a
u32, so the carry branch (`result > 0xFFFFFFFF`) can never fire; it is
kept verbatim. -/
def update_status_flags (p : SVPProcessor) (result : ℕ) : SVPProcessor :=
  let sr0 := p.sr &&& 0xFF00
  let sr1 := if result = 0 then sr0 ||| 0x0001 else sr0
  let sr2 := if (result &&& 0x80000000) ≠ 0 then sr1 ||| 0x0002 else sr1
  let sr3 := if 0xFFFFFFFF < result then sr2 ||| 0x0004 else sr2
  { p with sr := sr3 }

/-- SVPProcessor::process_render_command (processor.rs): synthesizes a
RenderCommand from the instruction fields and marks it ready,
overwriting any unconsumed pending command. -/
def process_render_command (p : SVPProcessor) (instr : ℕ) : SVPProcessor :=
  let cmd_type := (instr >>> 8) &&& 0xF
  { p with
    current_cmd := some
      { cmd_type :=
          if cmd_type = 0x0 then RenderCmdType.DrawPolygon
          else if cmd_type = 0x1 then RenderCmdType.DrawLine
          else if cmd_type = 0x2 then RenderCmdType.ClearFrame
          else RenderCmdType.Unknown
        vertices := [(0, 0), (0, 0), (0, 0), (0, 0)]
        texture_id := ((instr >>> 4) % 256) &&& 0xF
        color := instr &&& 0xF
        z_depth := 0 }
    cmd_ready := true }

/-- SVPProcessor::execute_instruction (processor.rs).  u32 arithmetic
wraps mod 2^32; any opcode outside the defined set is a no-op. -/
def execute_instruction (p : SVPProcessor) (instr : ℕ) : SVPProcessor :=
  let opcode := (instr >>> 12) &&& 0xF
  let rd := (instr >>> 8) &&& 0xF
  let rs := (instr >>> 4) &&& 0xF
  let imm := instr &&& 0xFF
  if opcode = 0x0 then
    { p with regs := Function.update p.regs rd (p.regs rs) }
  else if opcode = 0x1 then
    { p with regs := Function.update p.regs rd ((p.regs rs + imm) % 2 ^ 32) }
  else if opcode = 0x2 then
    let dv := (p.regs rs + (2 ^ 32 - imm % 2 ^ 32)) % 2 ^ 32
    { p with regs := Function.update p.regs rd dv }
  else if opcode = 0x3 then
    let result := (p.regs rs + (2 ^ 32 - imm % 2 ^ 32)) % 2 ^ 32
    p.update_status_flags result
  else if opcode = 0x8 then
    { p with pc := p.regs rs &&& 0xFFFFFF }
  else if opcode = 0x9 then
    { p with regs := Function.update p.regs 15 p.pc
             pc := p.regs rs &&& 0xFFFFFF }
  else if opcode = 0xA then
    { p with pc := p.regs 15 }
  else if opcode = 0xB then
    p.process_render_command instr
  else p

/-- SVPProcessor::write_command_buffer (processor.rs): stores at the
write pointer and advances it mod 128. -/
def write_command_buffer (p : SVPProcessor) (value : ℕ) : SVPProcessor :=
  { p with cmd_buffer := Function.update p.cmd_buffer p.cmd_write_ptr value
           cmd_write_ptr := (p.cmd_write_ptr + 1) &&& 0x7F }

/-- SVPProcessor::process_command_buffer (processor.rs): drains at most
one entry; entries with bit 15 set become render commands. -/
def process_command_buffer (p : SVPProcessor) : SVPProcessor :=
  if p.cmd_read_ptr ≠ p.cmd_write_ptr then
    let cmd := p.cmd_buffer p.cmd_read_ptr
    let p1 := { p with cmd_read_ptr := (p.cmd_read_ptr + 1) &&& 0x7F }
    if (cmd &&& 0x8000) ≠ 0 then p1.process_render_command cmd else p1
  else p

/-- SVPProcessor::execute_cycle (processor.rs). -/
def execute_cycle (p : SVPProcessor) : SVPProcessor :=
  if p.running = false ∨ p.halted = true then p
  else
    let p1 := { p with pipeline := Function.update p.pipeline 0 p.fetch_instruction }
    let decoded := p1.decode_instruction (p1.pipeline 0)
    let p2 := { p1 with pipeline := Function.update p1.pipeline 1 decoded }
    let p3 := p2.execute_instruction (p2.pipeline 1)
    let p4 := { p3 with pc := (p3.pc + 2) % 2 ^ 32 }
    p4.process_command_buffer

/-- SVPProcessor::render_command_ready (processor.rs). -/
def render_command_ready (p : SVPProcessor) : Bool := p.cmd_ready

/-- SVPProcessor::get_render_command (processor.rs): consumes the
pending command. -/
def get_render_command (p : SVPProcessor) :
    Option RenderCommand × SVPProcessor :=
  if p.cmd_ready then
    (p.current_cmd, { p with cmd_ready := false, current_cmd := none })
  else (none, p)

/-- SVPProcessor::command_completed (processor.rs). -/
def command_completed (p : SVPProcessor) : SVPProcessor :=
  { p with cmd_ready := false }

/-- SVPProcessor::irq_asserted accessor (processor.rs). -/
def irq_asserted_q (p : SVPProcessor) : Bool := p.irq_asserted

/-- SVPProcessor::clear_irq (processor.rs). -/
def clear_irq (p : SVPProcessor) : SVPProcessor :=
  { p with irq_asserted := false }

end SVPProcessor

/-! ## 3D renderer — svp/renderer.rs -/

/-- enum RenderMode (renderer.rs). -/
inductive RenderMode where
  | Wireframe
  | Solid
  | Textured
  | TexturedLight
  deriving DecidableEq, Repr

/-- struct ZBuffer (renderer.rs): per-pixel depth (smaller is nearer),
with `size` mirroring data.len(). -/
structure ZBuffer where
  width : ℕ
  height : ℕ
  data : ℕ → ℚ
  size : ℕ
  enabled : Bool
  write_enabled : Bool
  test_enabled : Bool
  near_plane : ℚ
  far_plane : ℚ

namespace ZBuffer

/-- ZBuffer::new (renderer.rs): every entry starts at 1.0, the farthest
value. -/
def new (width height : ℕ) : ZBuffer :=
  { width := width, height := height, data := fun _ => 1
    size := width * height, enabled := true, write_enabled := true
    test_enabled := true, near_plane := 1/10, far_plane := 1000 }

/-- ZBuffer::clear (renderer.rs). -/
def clear (zb : ZBuffer) (value : ℚ) : ZBuffer :=
  { zb with data := fun _ => value }

/-- ZBuffer::test_and_write (renderer.rs): returns whether the depth
test passed, writing the new depth on a pass when writes are enabled.
With testing disabled it always passes and never writes. -/
def test_and_write (zb : ZBuffer) (x y : ℕ) (depth : ℚ) : Bool × ZBuffer :=
  if zb.enabled = false ∨ zb.test_enabled = false then (true, zb)
  else
    let idx := y * zb.width + x
    if idx < zb.size then
      if depth < zb.data idx then
        (true,
         if zb.write_enabled then
           { zb with data := Function.update zb.data idx depth }
         else zb)
      else (false, zb)
    else (false, zb)

/-- ZBuffer::get_depth (renderer.rs). -/
def get_depth (zb : ZBuffer) (x y : ℕ) : ℚ :=
  let idx := y * zb.width + x
  if idx < zb.size then zb.data idx else 1

end ZBuffer

/-- struct FrameBuffer (renderer.rs): two pixel grids for double
buffering plus the single `data` grid, with `size` mirroring the grid
length. -/
structure FrameBuffer where
  width : ℕ
  height : ℕ
  data : ℕ → ℕ
  size : ℕ
  clear_color : ℕ
  double_buffered : Bool
  front_buffer : ℕ
  back_buffer : ℕ
  buffers : ℕ → ℕ → ℕ

namespace FrameBuffer

/-- FrameBuffer::new (renderer.rs). -/
def new (width height : ℕ) (double_buffered : Bool) : FrameBuffer :=
  { width := width, height := height, data := fun _ => 0
    size := width * height, clear_color := 0
    double_buffered := double_buffered, front_buffer := 0, back_buffer := 1
    buffers := fun _ _ => 0 }

/-- FrameBuffer::clear (renderer.rs): clears the back buffer when
double-buffered. -/
def clear (fb : FrameBuffer) : FrameBuffer :=
  if fb.double_buffered then
    let bufs := Function.update fb.buffers fb.back_buffer (fun _ => fb.clear_color)
    { fb with buffers := bufs }
  else
    { fb with data := fun _ => fb.clear_color }

/-- FrameBuffer::draw_pixel (renderer.rs): writes into the back buffer
when double-buffered. -/
def draw_pixel (fb : FrameBuffer) (x y color : ℕ) : Bool × FrameBuffer :=
  if x < fb.width ∧ y < fb.height then
    let idx := y * fb.width + x
    if fb.double_buffered then
      if idx < fb.size then
        let bufs := Function.update fb.buffers fb.back_buffer
          (Function.update (fb.buffers fb.back_buffer) idx color)
        (true, { fb with buffers := bufs })
      else (false, fb)
    else
      if idx < fb.size then
        (true, { fb with data := Function.update fb.data idx color })
      else (false, fb)
  else (false, fb)

/-- FrameBuffer::get_pixel (renderer.rs): reads the front buffer when
double-buffered. -/
def get_pixel (fb : FrameBuffer) (x y : ℕ) : ℕ :=
  if x < fb.width ∧ y < fb.height then
    let idx := y * fb.width + x
    if fb.double_buffered then
      if idx < fb.size then fb.buffers fb.front_buffer idx else 0
    else
      if idx < fb.size then fb.data idx else 0
  else 0

/-- FrameBuffer::swap_buffers (renderer.rs). -/
def swap_buffers (fb : FrameBuffer) : FrameBuffer :=
  if fb.double_buffered then
    { fb with front_buffer := fb.back_buffer, back_buffer := fb.front_buffer
              data := fb.buffers fb.back_buffer }
  else fb

/-- FrameBuffer::get_buffer (renderer.rs). -/
def get_buffer (fb : FrameBuffer) : ℕ → ℕ :=
  if fb.double_buffered then fb.buffers fb.front_buffer else fb.data

/-- FrameBuffer::set_clear_color (renderer.rs). -/
def set_clear_color (fb : FrameBuffer) (color : ℕ) : FrameBuffer :=
  { fb with clear_color := color }

end FrameBuffer

/-- struct Vertex (renderer.rs). -/
structure Vertex where
  x : ℚ
  y : ℚ
  z : ℚ
  w : ℚ
  u : ℚ
  v : ℚ
  color : ℕ
  intensity : ℚ
  deriving DecidableEq, Repr

/-- All-zero vertex, the default used for the bounded list lookups. -/
def Vertex.zero : Vertex :=
  { x := 0, y := 0, z := 0, w := 0, u := 0, v := 0, color := 0, intensity := 0 }

instance : Inhabited Vertex := ⟨Vertex.zero⟩

/-- struct Camera (renderer.rs).  The matrices are 4x4 and row-indexed
first, exactly as the source indexes them. -/
structure Camera where
  position : ℚ × ℚ × ℚ
  rotation : ℚ × ℚ × ℚ
  fov : ℚ
  aspect : ℚ
  view_matrix : ℕ → ℕ → ℚ
  projection_matrix : ℕ → ℕ → ℚ

namespace Camera

/-- Camera::transform_vertex (renderer.rs): view matrix, then
projection matrix, then perspective divide; when the projected w is
zero the vertex is returned untransformed. -/
def transform_vertex (c : Camera) (vtx : Vertex) : Vertex :=
  let vv := vtx
  let x := vv.x
  let y := vv.y
  let z := vv.z
  let w := vv.w
  let m := c.view_matrix
  let view_x := m 0 0 * x + m 1 0 * y + m 2 0 * z + m 3 0 * w
  let view_y := m 0 1 * x + m 1 1 * y + m 2 1 * z + m 3 1 * w
  let view_z := m 0 2 * x + m 1 2 * y + m 2 2 * z + m 3 2 * w
  let view_w := m 0 3 * x + m 1 3 * y + m 2 3 * z + m 3 3 * w
  let pm := c.projection_matrix
  let proj_x := pm 0 0 * view_x + pm 1 0 * view_y + pm 2 0 * view_z + pm 3 0 * view_w
  let proj_y := pm 0 1 * view_x + pm 1 1 * view_y + pm 2 1 * view_z + pm 3 1 * view_w
  let proj_z := pm 0 2 * view_x + pm 1 2 * view_y + pm 2 2 * view_z + pm 3 2 * view_w
  let proj_w := pm 0 3 * view_x + pm 1 3 * view_y + pm 2 3 * view_z + pm 3 3 * view_w
  if proj_w ≠ 0 then
    { vv with x := proj_x / proj_w, y := proj_y / proj_w
              z := proj_z / proj_w, w := proj_w
              u := vv.u / proj_w, v := vv.v / proj_w }
  else vv

end Camera

/-- struct SVPRenderer (renderer.rs). -/
structure SVPRenderer where
  framebuffer : FrameBuffer
  zbuffer : ZBuffer
  camera : Camera
  viewport : ℕ × ℕ × ℕ × ℕ
  render_mode : RenderMode
  fog_enabled : Bool
  fog_color : ℕ
  fog_start : ℚ
  fog_end : ℚ
  light_direction : ℚ × ℚ × ℚ
  ambient_light : ℚ
  diffuse_light : ℚ
  polygon_count : ℕ
  vertex_count : ℕ
  triangle_count : ℕ
  quad_count : ℕ

namespace SVPRenderer

/-- SVPRenderer::new (renderer.rs): 320x224, double-buffered, Textured
mode.  Camera::new computes the view and projection matrices with
sin/cos/tan of the fov and Euler angles; those transcendental values
have no exact rational embedding, so the matrices are left at the
all-zero value the Rust struct holds before the trigonometric updates
run (see the module comment — no claim depends on them). -/
def new : SVPRenderer :=
  { framebuffer := FrameBuffer.new 320 224 true
    zbuffer := ZBuffer.new 320 224
    camera :=
      { position := (0, 0, 0), rotation := (0, 0, 0)
        fov := 60, aspect := 320 / 224
        view_matrix := fun _ _ => 0, projection_matrix := fun _ _ => 0 }
    viewport := (0, 0, 320, 224)
    render_mode := RenderMode.Textured
    fog_enabled := false, fog_color := 0x7C00
    fog_start := 100, fog_end := 500
    light_direction := (0, -1, 0)
    ambient_light := 3/10, diffuse_light := 7/10
    polygon_count := 0, vertex_count := 0
    triangle_count := 0, quad_count := 0 }

/-- SVPRenderer::reset (renderer.rs). -/
def reset (r : SVPRenderer) : SVPRenderer :=
  { r with framebuffer := r.framebuffer.clear
           zbuffer := r.zbuffer.clear 1
           polygon_count := 0, vertex_count := 0
           triangle_count := 0, quad_count := 0 }

/-- SVPRenderer::clear (renderer.rs): clears the back buffer and resets
the Z-buffer to 1.0. -/
def clear (r : SVPRenderer) : SVPRenderer :=
  { r with framebuffer := r.framebuffer.clear
           zbuffer := r.zbuffer.clear 1 }

/-- SVPRenderer::world_to_screen (renderer.rs): camera transform, then
NDC-to-pixel mapping over the viewport with the Y axis flipped. -/
def world_to_screen (r : SVPRenderer) (v : Vertex) : Vertex :=
  let t := r.camera.transform_vertex v
  let vp := r.viewport
  { t with x := (t.x * (1/2) + 1/2) * (vp.2.2.1 : ℚ) + (vp.1 : ℚ)
           y := (1 - (t.y * (1/2) + 1/2)) * (vp.2.2.2 : ℚ) + (vp.2.1 : ℚ) }

/-- The signed 2D cross product of the first two screen-space edges,
the quantity SVPRenderer::is_front_facing (renderer.rs) tests. -/
def cross_z (vertices : List Vertex) : ℚ :=
  let v0 := vertices.getD 0 Vertex.zero
  let v1 := vertices.getD 1 Vertex.zero
  let v2 := vertices.getD 2 Vertex.zero
  let edge1_x := v1.x - v0.x
  let edge1_y := v1.y - v0.y
  let edge2_x := v2.x - v0.x
  let edge2_y := v2.y - v0.y
  edge1_x * edge2_y - edge1_y * edge2_x

/-- SVPRenderer::is_front_facing (renderer.rs): true exactly when the
cross product is positive (counter-clockwise). -/
def is_front_facing (_r : SVPRenderer) (vertices : List Vertex) : Bool :=
  if vertices.length < 3 then false
  else decide (0 < cross_z vertices)

/-- SVPRenderer::calculate_bounding_box (renderer.rs): fold of the
truncated vertex coordinates, clamped to the viewport. -/
def calculate_bounding_box (r : SVPRenderer) (vertices : List Vertex) :
    ℤ × ℤ × ℤ × ℤ :=
  let folded :=
    vertices.foldl
      (fun (acc : ℤ × ℤ × ℤ × ℤ) v =>
        let x := ratToI32 v.x
        let y := ratToI32 v.y
        (min acc.1 x, max acc.2.1 x, min acc.2.2.1 y, max acc.2.2.2 y))
      (2147483647, -2147483648, 2147483647, -2147483648)
  let vp := r.viewport
  (max folded.1 (vp.1 : ℤ),
   min folded.2.1 ((vp.1 + vp.2.2.1 : ℕ) - 1 : ℤ),
   max folded.2.2.1 (vp.2.1 : ℤ),
   min folded.2.2.2 ((vp.2.1 + vp.2.2.2 : ℕ) - 1 : ℤ))

/-- SVPRenderer::is_point_in_polygon (renderer.rs): ray-crossing test
over truncated i32 vertex coordinates; i32 division is Int.tdiv. -/
def is_point_in_polygon (_r : SVPRenderer) (x y : ℤ) (vertices : List Vertex) :
    Bool :=
  let n := vertices.length
  ((List.range n).foldl
    (fun (st : Bool × ℕ) i =>
      let j := st.2
      let vi := vertices.getD i Vertex.zero
      let vj := vertices.getD j Vertex.zero
      let xi := ratToI32 vi.x
      let yi := ratToI32 vi.y
      let xj := ratToI32 vj.x
      let yj := ratToI32 vj.y
      let inside' :=
        if (decide (y < yi) ≠ decide (y < yj)) ∧
           x < Int.tdiv ((xj - xi) * (y - yi)) (yj - yi) + xi then
          !st.1
        else st.1
      (inside', i))
    (false, n - 1)).1

/-- SVPRenderer::calculate_barycentric (renderer.rs): returns (0,0,0)
when the denominator is nearly zero. -/
def calculate_barycentric (_r : SVPRenderer) (x y : ℤ) (vertices : List Vertex) :
    ℚ × ℚ × ℚ :=
  let v0 := vertices.getD 0 Vertex.zero
  let v1 := vertices.getD 1 Vertex.zero
  let v2 := vertices.getD 2 Vertex.zero
  let x_f : ℚ := (x : ℚ)
  let y_f : ℚ := (y : ℚ)
  let denom := (v1.y - v2.y) * (v0.x - v2.x) + (v2.x - v1.x) * (v0.y - v2.y)
  if |denom| < 1/10000 then (0, 0, 0)
  else
    let alpha := ((v1.y - v2.y) * (x_f - v2.x) + (v2.x - v1.x) * (y_f - v2.y)) / denom
    let beta := ((v2.y - v0.y) * (x_f - v2.x) + (v0.x - v2.x) * (y_f - v2.y)) / denom
    (alpha, beta, 1 - alpha - beta)

/-- SVPRenderer::interpolate_depth (renderer.rs): linear interpolation
of z by the barycentric weights. -/
def interpolate_depth (_r : SVPRenderer) (alpha beta gamma : ℚ)
    (vertices : List Vertex) : ℚ :=
  let v0 := vertices.getD 0 Vertex.zero
  let v1 := vertices.getD 1 Vertex.zero
  let v2 := vertices.getD 2 Vertex.zero
  alpha * v0.z + beta * v1.z + gamma * v2.z

/-- SVPRenderer::calculate_depth (renderer.rs): linear depth along a
line segment. -/
def calculate_depth (_r : SVPRenderer) (v1 v2 : Vertex) (x y : ℤ) : ℚ :=
  let dx := v2.x - v1.x
  let dy := v2.y - v1.y
  let length_sq := dx * dx + dy * dy
  if length_sq < 1/10000 then v1.z
  else
    let t := (((x : ℚ) - v1.x) * dx + ((y : ℚ) - v1.y) * dy) / length_sq
    let t_clamped := min (max t 0) 1
    v1.z * (1 - t_clamped) + v2.z * t_clamped

/-- SVPRenderer::multiply_color (renderer.rs). -/
def multiply_color (_r : SVPRenderer) (color : ℕ) (factor : ℚ) : ℕ :=
  let rr : ℚ := ((color >>> 10) &&& 0x1F : ℕ)
  let gg : ℚ := ((color >>> 5) &&& 0x1F : ℕ)
  let bb : ℚ := (color &&& 0x1F : ℕ)
  let r_new := ratToU16 (min (max (rr * factor) 0) 31)
  let g_new := ratToU16 (min (max (gg * factor) 0) 31)
  let b_new := ratToU16 (min (max (bb * factor) 0) 31)
  (r_new <<< 10) ||| (g_new <<< 5) ||| b_new

/-- SVPRenderer::apply_lighting (renderer.rs). -/
def apply_lighting (r : SVPRenderer) (color : ℕ) (alpha beta gamma : ℚ)
    (vertices : List Vertex) : ℕ :=
  let v0 := vertices.getD 0 Vertex.zero
  let v1 := vertices.getD 1 Vertex.zero
  let v2 := vertices.getD 2 Vertex.zero
  let intensity := alpha * v0.intensity + beta * v1.intensity + gamma * v2.intensity
  r.multiply_color color (min (max intensity 0) 1)

/-- SVPRenderer::interpolate_colors (renderer.rs). -/
def interpolate_colors (_r : SVPRenderer) (color1 color2 : ℕ) (t : ℚ) : ℕ :=
  let r1 : ℚ := ((color1 >>> 10) &&& 0x1F : ℕ)
  let g1 : ℚ := ((color1 >>> 5) &&& 0x1F : ℕ)
  let b1 : ℚ := (color1 &&& 0x1F : ℕ)
  let r2 : ℚ := ((color2 >>> 10) &&& 0x1F : ℕ)
  let g2 : ℚ := ((color2 >>> 5) &&& 0x1F : ℕ)
  let b2 : ℚ := (color2 &&& 0x1F : ℕ)
  let rv := r1 * (1 - t) + r2 * t
  let gv := g1 * (1 - t) + g2 * t
  let bv := b1 * (1 - t) + b2 * t
  (ratToU16 rv <<< 10) ||| (ratToU16 gv <<< 5) ||| ratToU16 bv

/-- SVPRenderer::apply_fog (renderer.rs). -/
def apply_fog (r : SVPRenderer) (color : ℕ) (depth : ℚ) : ℕ :=
  let fog_factor := min (max ((depth - r.fog_start) / (r.fog_end - r.fog_start)) 0) 1
  r.interpolate_colors color r.fog_color fog_factor

/-- SVPRenderer::calculate_textured_pixel (renderer.rs):
perspective-correct u/v recovery and texture sampling; the texture_id
parameter is unused by the source body (sampling follows the unit's
currently bound texture). -/
def calculate_textured_pixel (r : SVPRenderer) (alpha beta gamma : ℚ)
    (vertices : List Vertex) (texture_unit : TextureUnit)
    (_texture_id : ℕ) : ℕ :=
  let v0 := vertices.getD 0 Vertex.zero
  let v1 := vertices.getD 1 Vertex.zero
  let v2 := vertices.getD 2 Vertex.zero
  let w0 := if v0.w ≠ 0 then 1 / v0.w else 1
  let w1 := if v1.w ≠ 0 then 1 / v1.w else 1
  let w2 := if v2.w ≠ 0 then 1 / v2.w else 1
  let inv_w := alpha * w0 + beta * w1 + gamma * w2
  if inv_w = 0 then 0x7C00
  else
    let u_over_w := alpha * v0.u * w0 + beta * v1.u * w1 + gamma * v2.u * w2
    let v_over_w := alpha * v0.v * w0 + beta * v1.v * w1 + gamma * v2.v * w2
    let uu := u_over_w / inv_w
    let vv := v_over_w / inv_w
    let tex_color := texture_unit.sample uu vv 0
    if r.render_mode = RenderMode.TexturedLight then
      r.apply_lighting tex_color alpha beta gamma vertices
    else tex_color

/-- SVPRenderer::draw_polygon (renderer.rs): transform, backface cull,
then a bounding-box rasterization loop with point-in-polygon test,
barycentric interpolation, depth test, shading, optional fog, and the
back-buffer pixel write. -/
def draw_polygon (r : SVPRenderer) (vertices : List Vertex)
    (texture_unit : TextureUnit) (texture_id color : ℕ) : SVPRenderer :=
  if vertices.length < 3 then r
  else
    let screen_vertices := vertices.map r.world_to_screen
    if r.is_front_facing screen_vertices = false then r
    else
      let bb := r.calculate_bounding_box screen_vertices
      let min_x := bb.1
      let max_x := bb.2.1
      let min_y := bb.2.2.1
      let max_y := bb.2.2.2
      let r1 :=
        (intRangeIncl min_y max_y).foldl
          (fun ry yy =>
            (intRangeIncl min_x max_x).foldl
              (fun rx xx =>
                if 0 ≤ xx ∧ xx < (rx.framebuffer.width : ℤ) ∧
                   0 ≤ yy ∧ yy < (rx.framebuffer.height : ℤ) then
                  if rx.is_point_in_polygon xx yy screen_vertices then
                    let bc := rx.calculate_barycentric xx yy screen_vertices
                    let alpha := bc.1
                    let beta := bc.2.1
                    let gamma := bc.2.2
                    let depth := rx.interpolate_depth alpha beta gamma screen_vertices
                    let tw := rx.zbuffer.test_and_write xx.toNat yy.toNat depth
                    let rz := { rx with zbuffer := tw.2 }
                    if tw.1 then
                      let pixel_color :=
                        match rz.render_mode with
                        | RenderMode.Wireframe => color
                        | RenderMode.Solid => color
                        | _ =>
                          rz.calculate_textured_pixel alpha beta gamma
                            screen_vertices texture_unit texture_id
                      let final_color :=
                        if rz.fog_enabled then rz.apply_fog pixel_color depth
                        else pixel_color
                      { rz with framebuffer :=
                          (rz.framebuffer.draw_pixel xx.toNat yy.toNat final_color).2 }
                    else rz
                  else rx
                else rx)
              ry)
          r
      let r2 := { r1 with polygon_count := r1.polygon_count + 1
                          vertex_count := r1.vertex_count + vertices.length }
      if vertices.length = 3 then
        { r2 with triangle_count := r2.triangle_count + 1 }
      else if vertices.length = 4 then
        { r2 with quad_count := r2.quad_count + 1 }
      else r2

/-- SVPRenderer::draw_triangle (renderer.rs). -/
def draw_triangle (r : SVPRenderer) (v1 v2 v3 : Vertex)
    (texture_unit : TextureUnit) (texture_id color : ℕ) : SVPRenderer :=
  r.draw_polygon [v1, v2, v3] texture_unit texture_id color

/-- SVPRenderer::draw_quad (renderer.rs): two triangles sharing the
v1-v3 diagonal. -/
def draw_quad (r : SVPRenderer) (v1 v2 v3 v4 : Vertex)
    (texture_unit : TextureUnit) (texture_id color : ℕ) : SVPRenderer :=
  ((r.draw_triangle v1 v2 v3 texture_unit texture_id color).draw_triangle
    v1 v3 v4 texture_unit texture_id color)

/-- The Bresenham walk of SVPRenderer::draw_line (renderer.rs).  The
source loops until the walk reaches the endpoint exactly; the walk is
bounded here by an explicit fuel of |dx| + |dy| + 1 steps, the standard
iteration count of the algorithm (each iteration advances x or y by one
toward the endpoint). -/
def bresenham_loop (v1s v2s : Vertex) (color : ℕ) (x1 y1 dx dy sx sy : ℤ) :
    ℕ → ℤ → ℤ → ℤ → SVPRenderer → SVPRenderer
  | 0, _, _, _, r => r
  | fuel + 1, x0, y0, err, r =>
    let r1 :=
      if 0 ≤ x0 ∧ x0 < (r.framebuffer.width : ℤ) ∧
         0 ≤ y0 ∧ y0 < (r.framebuffer.height : ℤ) then
        let depth := r.calculate_depth v1s v2s x0 y0
        let tw := r.zbuffer.test_and_write x0.toNat y0.toNat depth
        let r2 := { r with zbuffer := tw.2 }
        if tw.1 then
          { r2 with framebuffer :=
              (r2.framebuffer.draw_pixel x0.toNat y0.toNat color).2 }
        else r2
      else r
    if x0 = x1 ∧ y0 = y1 then r1
    else
      let e2 := 2 * err
      let ex : ℤ × ℤ := if dy ≤ e2 then (err + dy, x0 + sx) else (err, x0)
      let ey : ℤ × ℤ := if e2 ≤ dx then (ex.1 + dx, y0 + sy) else (ex.1, y0)
      bresenham_loop v1s v2s color x1 y1 dx dy sx sy fuel ex.2 ey.2 ey.1 r1

/-- SVPRenderer::draw_line (renderer.rs). -/
def draw_line (r : SVPRenderer) (v1 v2 : Vertex) (color : ℕ) : SVPRenderer :=
  let v1_screen := r.world_to_screen v1
  let v2_screen := r.world_to_screen v2
  let x0 := ratToI32 v1_screen.x
  let y0 := ratToI32 v1_screen.y
  let x1 := ratToI32 v2_screen.x
  let y1 := ratToI32 v2_screen.y
  let dx := |x1 - x0|
  let dy := -|y1 - y0|
  let sx : ℤ := if x0 < x1 then 1 else -1
  let sy : ℤ := if y0 < y1 then 1 else -1
  let err := dx + dy
  let r1 := bresenham_loop v1_screen v2_screen color x1 y1 dx dy sx sy
              ((dx - dy).toNat + 1) x0 y0 err r
  { r1 with polygon_count := r1.polygon_count + 1 }

/-- SVPRenderer::swap_buffers (renderer.rs). -/
def swap_buffers (r : SVPRenderer) : SVPRenderer :=
  { r with framebuffer := r.framebuffer.swap_buffers }

/-- SVPRenderer::get_frame_buffer (renderer.rs). -/
def get_frame_buffer (r : SVPRenderer) : ℕ → ℕ :=
  r.framebuffer.get_buffer

/-- SVPRenderer::set_render_mode (renderer.rs). -/
def set_render_mode (r : SVPRenderer) (mode : RenderMode) : SVPRenderer :=
  { r with render_mode := mode }

/-- SVPRenderer::set_fog_enabled (renderer.rs). -/
def set_fog_enabled (r : SVPRenderer) (enabled : Bool) : SVPRenderer :=
  { r with fog_enabled := enabled }

/-- SVPRenderer::set_viewport (renderer.rs). -/
def set_viewport (r : SVPRenderer) (x y width height : ℕ) : SVPRenderer :=
  { r with viewport := (x, y, width, height) }

end SVPRenderer

/-! ## SVP facade — svp/mod.rs and chips/mod.rs -/

/-- struct SVP (svp/mod.rs): processor, DMA controller, texture unit,
renderer, 8192-word working memory, 131072-byte texture memory, 16
facade registers, chip flags, and the optional host-bus back-reference
(modelled as the bus word-read function). -/
structure SVP where
  processor : SVPProcessor
  dma : SVPDmaController
  texture_unit : TextureUnit
  renderer : SVPRenderer
  dram : ℕ → ℕ
  texram : ℕ → ℕ
  regs : ℕ → ℕ
  enabled : Bool
  running : Bool
  irq_pending : Bool
  bus : Option (ℕ → ℕ)

namespace SVP

/-- SVP::new (svp/mod.rs). -/
def new : SVP :=
  { processor := SVPProcessor.new
    dma := SVPDmaController.new
    texture_unit := TextureUnit.new
    renderer := SVPRenderer.new
    dram := fun _ => 0
    texram := fun _ => 0
    regs := fun _ => 0
    enabled := false
    running := false
    irq_pending := false
    bus := none }

/-- SVP::reset (svp/mod.rs): resets the processor, DMA controller and
renderer, zeroes both memories and the registers, and clears the chip
flags.  (The texture unit and the bus reference are left untouched,
exactly as in the source.) -/
def reset (s : SVP) : SVP :=
  { s with processor := s.processor.reset
           dma := s.dma.reset
           renderer := s.renderer.reset
           dram := fun _ => 0
           texram := fun _ => 0
           regs := fun _ => 0
           enabled := false
           running := false
           irq_pending := false }

/-- SVP::set_enabled (svp/mod.rs). -/
def set_enabled (s : SVP) (enabled : Bool) : SVP :=
  let s1 := { s with enabled := enabled }
  if enabled then { s1 with regs := Function.update s1.regs 0 0x8000 } else s1

/-- SVP::read_word (svp/mod.rs): working memory, texture memory,
registers, ROM pass-through, and the 0x0000 fallback for everything
else.  Note that the texture-memory arm indexes the 131072-byte store
by the unadjusted address. -/
def read_word (s : SVP) (addr : ℕ) : ℕ :=
  let svp_addr := addr &&& 0xFFFFFF
  if svp_addr ≤ 0x3FFF then
    let index := svp_addr >>> 1
    if index < 8192 then s.dram index else 0
  else if 0x4000 ≤ svp_addr ∧ svp_addr ≤ 0x23FFF then
    let index := svp_addr
    if index < 131072 then
      (s.texram (index + 1)) <<< 8 ||| s.texram index
    else 0
  else if 0x30000 ≤ svp_addr ∧ svp_addr ≤ 0x3001F then
    let reg_index := (svp_addr - 0x30000) >>> 1
    if reg_index < 16 then s.regs reg_index else 0
  else if 0x40000 ≤ svp_addr ∧ svp_addr ≤ 0x3FFFFF then
    match s.bus with
    | some bus_read => bus_read addr
    | none => 0
  else 0

/-- SVP::write_register (svp/mod.rs): stores the register value, then
dispatches — run/stop and reset on register 0, DMA configuration on
registers 1..3 (bit 15 of register 3 starts the DMA), IRQ ack on
register 4. -/
def write_register (s : SVP) (reg value : ℕ) : SVP :=
  let s0 := { s with regs := Function.update s.regs reg value }
  if reg = 0 then
    let old_running := s0.running
    let new_running := decide ((value &&& 0x0001) ≠ 0)
    let s1 := { s0 with running := new_running }
    let s2 :=
      if old_running = false ∧ new_running = true then
        { s1 with processor := s1.processor.start }
      else if old_running = true ∧ new_running = false then
        { s1 with processor := s1.processor.stop }
      else s1
    if (value &&& 0x8000) ≠ 0 then
      let s3 := s2.reset
      { s3 with regs := Function.update s3.regs 0 0x8000 }
    else s2
  else if reg = 1 then
    { s0 with dma := s0.dma.set_source value }
  else if reg = 2 then
    { s0 with dma := s0.dma.set_destination value }
  else if reg = 3 then
    let s1 := { s0 with dma := s0.dma.set_length value }
    if (value &&& 0x8000) ≠ 0 then { s1 with dma := s1.dma.start } else s1
  else if reg = 4 then
    if (value &&& 0x0001) ≠ 0 then
      { s0 with irq_pending := false, processor := s0.processor.clear_irq }
    else s0
  else s0

/-- SVP::write_word (svp/mod.rs): working-memory writes mirror into the
processor's command buffer for word indices 0x100..0x180;
texture-memory writes store two little-endian bytes at the unadjusted
address; register writes dispatch through write_register; everything
else is ignored. -/
def write_word (s : SVP) (addr value : ℕ) : SVP :=
  let svp_addr := addr &&& 0xFFFFFF
  if svp_addr ≤ 0x3FFF then
    let index := svp_addr >>> 1
    if index < 8192 then
      let s1 := { s with dram := Function.update s.dram index value }
      if 0x100 ≤ index ∧ index < 0x180 then
        { s1 with processor := s1.processor.write_command_buffer value }
      else s1
    else s
  else if 0x4000 ≤ svp_addr ∧ svp_addr ≤ 0x23FFF then
    let index := svp_addr
    if index < 131072 - 1 then
      let tex := Function.update (Function.update s.texram index (value % 256))
        (index + 1) ((value >>> 8) % 256)
      { s with texram := tex }
    else s
  else if 0x30000 ≤ svp_addr ∧ svp_addr ≤ 0x3001F then
    let reg_index := (svp_addr - 0x30000) >>> 1
    if reg_index < 16 then s.write_register reg_index value else s
  else s

/-- SVP::process_render_command (svp/mod.rs): consumes the pending
render command, builds renderer vertices from its i16 pairs (z = 0,
w = 1, u = v = 0, intensity = 1), dispatches to the renderer, and marks
the command completed. -/
def process_render_command (s : SVP) : SVP :=
  let gc := s.processor.get_render_command
  match gc.1 with
  | some cmd =>
    let s1 := { s with processor := gc.2 }
    let vertices : List Vertex :=
      cmd.vertices.map (fun p =>
        { x := (p.1 : ℚ), y := (p.2 : ℚ), z := 0, w := 1, u := 0, v := 0
          color := cmd.color, intensity := 1 })
    let s2 :=
      match cmd.cmd_type with
      | RenderCmdType.DrawPolygon =>
        { s1 with renderer :=
            s1.renderer.draw_polygon vertices s1.texture_unit cmd.texture_id cmd.color }
      | RenderCmdType.DrawLine =>
        if 2 ≤ vertices.length then
          let rl := s1.renderer.draw_line (vertices.getD 0 Vertex.zero)
            (vertices.getD 1 Vertex.zero) cmd.color
          { s1 with renderer := rl }
        else s1
      | RenderCmdType.ClearFrame =>
        { s1 with renderer := s1.renderer.clear }
      | RenderCmdType.Unknown => s1
    { s2 with processor := s2.processor.command_completed }
  | none => { s with processor := gc.2 }

/-- SVP::tick (svp/mod.rs): early return unless enabled and running;
then one processor cycle, one DMA transfer cycle when active, one
render-command drain when ready, and the IRQ-pending update.  The
texture unit is never touched here. -/
def tick (s : SVP) : SVP :=
  if s.enabled = false ∨ s.running = false then s
  else
    let s1 := { s with processor := s.processor.execute_cycle }
    let s2 :=
      if s1.dma.is_active then
        let tc := s1.dma.transfer_cycle s1.dram s1.texram
        { s1 with dma := tc.1, dram := tc.2.1, texram := tc.2.2 }
      else s1
    let s3 :=
      if s2.processor.render_command_ready then s2.process_render_command
      else s2
    if s3.processor.irq_asserted_q then { s3 with irq_pending := true }
    else s3

/-- SVP::get_frame_buffer (svp/mod.rs). -/
def get_frame_buffer (s : SVP) : ℕ → ℕ :=
  s.renderer.get_frame_buffer

/-- SVP::irq_pending accessor (svp/mod.rs). -/
def irq_pending_q (s : SVP) : Bool := s.irq_pending

/-- bool-to-byte of the Rust `as u8` casts in save_state. -/
def bool_byte (b : Bool) : ℕ := if b then 1 else 0

/-- u16::to_le_bytes: low byte then high byte. -/
def u16_le_bytes (v : ℕ) : List ℕ := [v % 256, v / 256 % 256]

/-- CartridgeChip::save_state for SVP (chips/mod.rs): three flag bytes,
the 16 registers little-endian, then the 8192 working-memory words
little-endian.  The source pushes these in order; the element-wise
extends become flatMaps over the same index ranges. -/
def save_state (s : SVP) : List ℕ :=
  [bool_byte s.enabled, bool_byte s.running, bool_byte s.irq_pending]
    ++ (List.range 16).flatMap (fun j => u16_le_bytes (s.regs j))
    ++ (List.range 8192).flatMap (fun j => u16_le_bytes (s.dram j))

/-- CartridgeChip::load_state for SVP (chips/mod.rs): rejects buffers
shorter than 3 + 16*2 + 8192*2 bytes, otherwise loads the flags, the 16
registers and the 8192 working-memory words from consecutive
little-endian byte pairs.  Each source loop writes every target index
exactly once from its fixed offset, so the loops become the
corresponding pointwise functions.  Nothing else — in particular none
of the DMA controller state — is read from the snapshot. -/
def load_state (s : SVP) (data : List ℕ) : Bool × SVP :=
  if data.length < 3 + 16 * 2 + 8192 * 2 then (false, s)
  else
    let regs' : ℕ → ℕ := fun j =>
      if j < 16 then
        (data.getD (3 + j * 2 + 1) 0) <<< 8 ||| data.getD (3 + j * 2) 0
      else s.regs j
    let dram' : ℕ → ℕ := fun j =>
      if j < 8192 then
        (data.getD (35 + j * 2 + 1) 0) <<< 8 ||| data.getD (35 + j * 2) 0
      else s.dram j
    (true,
     { s with enabled := decide (data.getD 0 0 ≠ 0)
              running := decide (data.getD 1 0 ≠ 0)
              irq_pending := decide (data.getD 2 0 ≠ 0)
              regs := regs'
              dram := dram' })

end SVP

/-! ## Theorems settling the claims -/

/-- Claim C5, counterexample: the claim says a start() with zero
configured length is a no-op after which is_active() still reports
false, and that length = 0 implies active = false in every reachable
state.  Writing 0x8000 to DMA register 3 on a fresh chip sets the
length to 0 and starts the DMA: the controller ends active with zero
length, refuting both parts at this concrete reachable state. -/
theorem C5_zero_length_start_counterexample :
    (SVP.write_word SVP.new 0x30006 0x8000).dma.length = 0 ∧
    (SVP.write_word SVP.new 0x30006 0x8000).dma.is_active = true := by
  constructor <;> rfl

/-- Claim C5, amended: start() activates the controller
unconditionally, so active-with-zero-length states are reachable (see
the counterexample), and transfer_cycle is then a no-op that never
clears active; but every transfer_cycle performed with a positive
remaining length decrements it by one and leaves the controller active
exactly while the remaining length is nonzero. -/
theorem C5_transfer_cycle_clears_active (d : SVPDmaController)
    (dram texram : ℕ → ℕ) (h1 : d.active = true) (h2 : 0 < d.length) :
    (d.transfer_cycle dram texram).1.length = d.length - 1 ∧
    (d.transfer_cycle dram texram).1.active = decide (d.length - 1 ≠ 0) := by
  unfold SVPDmaController.transfer_cycle
  have hg : ¬ (d.active = false ∨ d.length = 0) := by
    rintro (h | h)
    · rw [h1] at h; exact Bool.noConfusion h
    · omega
  rw [if_neg hg]
  rcases hdir : d.direction <;>
    simp only [hdir, h1] <;>
    constructor <;>
    rcases eq_or_ne (d.length - 1) 0 with h0 | h0 <;>
    simp [h0]

/-- Claim C5, witness of the amended theorem at a concrete input. -/
theorem C5_transfer_cycle_witness :
    ((SVPDmaController.new.set_length 1).start.active = true) ∧
    (0 < (SVPDmaController.new.set_length 1).start.length) ∧
    (((SVPDmaController.new.set_length 1).start.transfer_cycle
        (fun _ => 0) (fun _ => 0)).1.length =
      (SVPDmaController.new.set_length 1).start.length - 1 ∧
     ((SVPDmaController.new.set_length 1).start.transfer_cycle
        (fun _ => 0) (fun _ => 0)).1.active =
      decide ((SVPDmaController.new.set_length 1).start.length - 1 ≠ 0)) :=
  ⟨rfl, by decide,
   C5_transfer_cycle_clears_active _ _ _ rfl (by decide)⟩

/-- Claim C6, confirmed: for every address whose masked 24-bit value
falls outside the four decoded windows, read_word returns the fixed
fallback 0x0000 whatever the state holds, and write_word returns the
state unchanged. -/
theorem C6_out_of_range_reads_and_writes (s : SVP) (addr value : ℕ)
    (h1 : ¬ (addr &&& 0xFFFFFF) ≤ 0x3FFF)
    (h2 : ¬ (0x4000 ≤ (addr &&& 0xFFFFFF) ∧ (addr &&& 0xFFFFFF) ≤ 0x23FFF))
    (h3 : ¬ (0x30000 ≤ (addr &&& 0xFFFFFF) ∧ (addr &&& 0xFFFFFF) ≤ 0x3001F))
    (h4 : ¬ (0x40000 ≤ (addr &&& 0xFFFFFF) ∧ (addr &&& 0xFFFFFF) ≤ 0x3FFFFF)) :
    s.read_word addr = 0 ∧ s.write_word addr value = s := by
  constructor
  · unfold SVP.read_word
    rw [if_neg h1, if_neg h2, if_neg h3, if_neg h4]
  · unfold SVP.write_word
    rw [if_neg h1, if_neg h2, if_neg h3]

/-- Claim C6, witness at the concrete out-of-window address 0x024000. -/
theorem C6_out_of_range_witness :
    (¬ ((0x024000 : ℕ) &&& 0xFFFFFF) ≤ 0x3FFF) ∧
    (SVP.read_word SVP.new 0x024000 = 0 ∧
     SVP.write_word SVP.new 0x024000 7 = SVP.new) :=
  ⟨by decide,
   C6_out_of_range_reads_and_writes SVP.new 0x024000 7
     (by decide) (by decide) (by decide) (by decide)⟩

/-- Claim C10, confirmed: when the chip is disabled or not running,
tick returns the state unchanged — no processor cycle, no DMA, no
render-command drain, no flag update. -/
theorem C10_tick_noop_when_idle (s : SVP)
    (h : s.enabled = false ∨ s.running = false) : s.tick = s := by
  unfold SVP.tick
  rw [if_pos h]

/-- Claim C10, witness: a fresh chip is disabled, and tick leaves it
unchanged. -/
theorem C10_tick_noop_witness :
    SVP.new.enabled = false ∧ SVP.tick SVP.new = SVP.new :=
  ⟨rfl, C10_tick_noop_when_idle SVP.new (Or.inl rfl)⟩

/-- Claim C4, counterexample: 0x020000 is a word-aligned address inside
the declared texture-memory window 0x004000..=0x023FFE, yet a write
there is dropped and the read returns 0, because the store is indexed
by the unadjusted address and 0x020000 is already past the 131072-byte
store's end. -/
theorem C4_unbacked_window_counterexample :
    SVP.read_word (SVP.write_word SVP.new 0x20000 0x1234) 0x20000 = 0 ∧
    (0x1234 : ℕ) ≠ 0 ∧
    SVP.write_word SVP.new 0x20000 0x1234 = SVP.new :=
  ⟨rfl, by decide, rfl⟩

/-- Claim C4, amended: the word write/read round-trip holds on the
backed part of the window only — word-aligned addresses 0x004000
through 0x01FFFE.  The texture-memory arm indexes the 131072-byte store
by the unadjusted address, so addresses 0x020000..=0x023FFF of the
declared window are unbacked: writes there are dropped and reads return
0 (see the counterexample). -/
theorem C4_texture_window_roundtrip (s : SVP) (A v : ℕ)
    (h1 : 0x4000 ≤ A) (h2 : A ≤ 0x1FFFE) (_h3 : A % 2 = 0) :
    (s.write_word A v).read_word A = v % 65536 := by
  have hmask : A &&& 0xFFFFFF = A := by
    have he : (0xFFFFFF : ℕ) = 2 ^ 24 - 1 := by norm_num
    rw [he, Nat.and_pow_two_sub_one_eq_mod, Nat.mod_eq_of_lt (by omega)]
  have hw : s.write_word A v =
      { s with texram := Function.update (Function.update s.texram A (v % 256)) (A + 1) ((v >>> 8) % 256) } := by
    unfold SVP.write_word
    simp only [hmask]
    rw [if_neg (show ¬ A ≤ 0x3FFF by omega),
        if_pos (show 0x4000 ≤ A ∧ A ≤ 0x23FFF from ⟨h1, by omega⟩),
        if_pos (show A < 131072 - 1 by omega)]
  rw [hw]
  unfold SVP.read_word
  simp only [hmask]
  rw [if_neg (show ¬ A ≤ 0x3FFF by omega),
      if_pos (show 0x4000 ≤ A ∧ A ≤ 0x23FFF from ⟨h1, by omega⟩),
      if_pos (show A < 131072 by omega)]
  rw [hmask]
  rw [Function.update_same, Function.update_noteq (by omega : A ≠ A + 1),
      Function.update_same]
  rw [Nat.shiftRight_eq_div_pow, Nat.shiftLeft_eq]
  rw [Nat.mul_comm (v / 2 ^ 8 % 256) (2 ^ 8)]
  rw [← Nat.mul_add_lt_is_or (show v % 256 < 2 ^ 8 by omega)]
  have h65536 : (65536 : ℕ) = 256 * 256 := by norm_num
  rw [h65536, Nat.mod_mul]
  norm_num [Nat.add_comm]

/-- Claim C4, witness of the amended round-trip at A = 0x4000. -/
theorem C4_texture_window_witness :
    ((0x4000 : ℕ) ≤ 0x4000 ∧ (0x4000 : ℕ) ≤ 0x1FFFE ∧ (0x4000 : ℕ) % 2 = 0) ∧
    (SVP.write_word SVP.new 0x4000 0x1234).read_word 0x4000 = 0x1234 % 65536 :=
  ⟨⟨by decide, by decide, by decide⟩,
   C4_texture_window_roundtrip SVP.new 0x4000 0x1234
     (by decide) (by decide) (by decide)⟩

/-- Claim C9, confirmed: a word write to working memory stores the word
at the addressed index, and exactly when that word index lies in
0x100..0x180 (byte addresses 0x200..0x2FF) the same value is also
appended to the processor's 128-entry command buffer at the write
pointer, which advances modulo 128; the read pointer, and for all other
working-memory indices the whole processor state, are untouched. -/
theorem C9_command_buffer_mirror (s : SVP) (addr value : ℕ)
    (h : (addr &&& 0xFFFFFF) ≤ 0x3FFF) :
    s.write_word addr value =
      (let index := (addr &&& 0xFFFFFF) >>> 1
       let wp := s.processor.cmd_write_ptr
       let buf := Function.update s.processor.cmd_buffer wp value
       let proc := { s.processor with cmd_buffer := buf, cmd_write_ptr := (wp + 1) % 128 }
       if 0x100 ≤ index ∧ index < 0x180 then
         { s with dram := Function.update s.dram index value, processor := proc }
       else
         { s with dram := Function.update s.dram index value }) := by
  unfold SVP.write_word SVPProcessor.write_command_buffer
  rw [if_pos h]
  have hidx : (addr &&& 0xFFFFFF) >>> 1 < 8192 := by
    rw [Nat.shiftRight_eq_div_pow]
    omega
  rw [if_pos hidx]
  have hmod : (s.processor.cmd_write_ptr + 1) &&& 0x7F =
      (s.processor.cmd_write_ptr + 1) % 128 := by
    have he : (0x7F : ℕ) = 2 ^ 7 - 1 := by norm_num
    rw [he, Nat.and_pow_two_sub_one_eq_mod]
  simp only [hmod]

/-- Claim C9, witness at byte address 0x200 (word index 0x100). -/
theorem C9_command_buffer_witness :
    (((0x200 : ℕ) &&& 0xFFFFFF) ≤ 0x3FFF) ∧
    SVP.write_word SVP.new 0x200 5 =
      (let index := ((0x200 : ℕ) &&& 0xFFFFFF) >>> 1
       let wp := SVP.new.processor.cmd_write_ptr
       let buf := Function.update SVP.new.processor.cmd_buffer wp 5
       let proc := { SVP.new.processor with cmd_buffer := buf, cmd_write_ptr := (wp + 1) % 128 }
       if 0x100 ≤ index ∧ index < 0x180 then
         { SVP.new with dram := Function.update SVP.new.dram index 5, processor := proc }
       else
         { SVP.new with dram := Function.update SVP.new.dram index 5 }) :=
  ⟨by decide, C9_command_buffer_mirror SVP.new 0x200 5 (by decide)⟩

/-- A texture unit with texture 2 loaded (base 0x4000, 8192 bytes). -/
def c1CachedUnit : TextureUnit :=
  ((TextureUnit.new.connect_texram (fun _ => 0)).bind_texture 2).2

/-- The concrete SVP state of the C1 failing input: enabled and
running, texture 2 cached, DMA started toward 0x4000 with length 1. -/
def c1State : SVP :=
  { SVP.new with
    enabled := true, running := true
    dma := ((SVPDmaController.new.set_destination 0x4000).set_length 1).start
    texture_unit := c1CachedUnit }

/-- Claim C1, code bug: the claim (and the spec's core correctness
property) says every DMA transfer cycle performed during tick() evicts
the cached textures whose backing byte ranges overlap the transferred
range.  tick() never touches the texture unit at all:
TextureUnit::process_dma_transfer / invalidate_affected_textures exist
but are called nowhere in the repository, and the unit's DMA reference
is never connected.  Concretely (c1State): texture 2 is cached with
backing range 0x4000..0x6000, an active DMA with destination 0x4000 and
length 1 is pending, tick() completes the transfer (active falls to
false, bytes 0x4000..0x4002 of texture memory are written inside the
texture's backing range), yet the texture unit — texture 2 included —
is exactly as before. -/
theorem C1_tick_skips_dma_invalidation :
    ((c1State.texture_unit.cache.textures 2).map Texture.base_addr = some 0x4000) ∧
    ((c1State.texture_unit.cache.textures 2).map Texture.size_bytes = some 8192) ∧
    c1State.dma.active = true ∧ c1State.dma.dst_addr = 0x4000 ∧
    c1State.dma.length = 1 ∧
    c1State.tick.dma.active = false ∧
    (c1State.tick.texture_unit.cache.textures 2).isSome = true ∧
    c1State.tick.texture_unit = c1State.texture_unit :=
  ⟨rfl, rfl, rfl, rfl, rfl, rfl, rfl, rfl⟩

/-- The texture unit after binding the 16 distinct ids 0..15 in strict
sequence on a fresh unit connected to all-zero texture memory. -/
def c3Sixteen : TextureUnit :=
  (List.range 16).foldl (fun acc i => (acc.bind_texture i).2)
    (TextureUnit.new.connect_texram (fun _ => 0))

/-- Claim C3, counterexample: binding the 17 distinct ids 0..16 in
sequence does not evict the least-recently-bound of the first 16 and
does not cache the 17th: the 17th bind (id 16) is rejected outright and
changes nothing — id 0 is still cached and the unit is exactly as after
the first 16 binds. -/
theorem C3_lru_eviction_counterexample :
    (c3Sixteen.bind_texture 16).1 = false ∧
    ((c3Sixteen.bind_texture 16).2.cache.textures 0).isSome = true ∧
    (c3Sixteen.bind_texture 16).2 = c3Sixteen :=
  ⟨rfl, rfl, rfl⟩

/-- Claim C3, amended: the cache is direct-mapped by texture id
(TextureCache::insert stores into slot id; find_lru_slot is dead code),
and bind_texture rejects ids at or above 16, so a 17th distinct id can
never enter the cache and nothing is ever evicted by binding a
different id: after binding ids 0..15 all sixteen are cached, and the
17th bind (id 16) returns false leaving the unit unchanged. -/
theorem C3_direct_mapped_cache :
    ((List.range 16).all (fun i => (c3Sixteen.cache.textures i).isSome)) = true ∧
    (c3Sixteen.bind_texture 16).1 = false ∧
    (c3Sixteen.bind_texture 16).2 = c3Sixteen :=
  ⟨rfl, rfl, rfl⟩

/-- Claim C7, counterexample: the claim says the first depth test after
clear() passes for every finite interpolated depth because the far
sentinel is larger than any finite depth.  The sentinel clear() writes
is 1.0 and the test is a strict less-than, so the finite depth 1.0 at
the in-bounds pixel (0,0) fails its first test after clear(). -/
theorem C7_sentinel_counterexample :
    ((SVPRenderer.new.clear).zbuffer.test_and_write 0 0 1).1 = false := rfl

/-- Claim C7, amended: clear() resets every Z-buffer entry to the
sentinel 1.0, so the first depth test at any in-bounds pixel passes for
every interpolated depth strictly less than 1.0; the sentinel is not
larger than every finite depth — finite depths of 1.0 or more fail
(see the counterexample). -/
theorem C7_first_test_after_clear (r : SVPRenderer) (x y : ℕ) (d : ℚ)
    (hin : y * r.zbuffer.width + x < r.zbuffer.size) (hd : d < 1) :
    ((r.clear).zbuffer.test_and_write x y d).1 = true := by
  unfold SVPRenderer.clear ZBuffer.clear ZBuffer.test_and_write
  dsimp only
  by_cases henb : r.zbuffer.enabled = false ∨ r.zbuffer.test_enabled = false
  · rw [if_pos henb]
  · rw [if_neg henb, if_pos hin, if_pos hd]

/-- Claim C7, witness of the amended theorem at pixel (5,3) with depth
one half. -/
theorem C7_first_test_witness :
    (3 * SVPRenderer.new.zbuffer.width + 5 < SVPRenderer.new.zbuffer.size) ∧
    ((1 : ℚ)/2 < 1) ∧
    ((SVPRenderer.new.clear).zbuffer.test_and_write 5 3 (1/2)).1 = true :=
  ⟨by decide, by norm_num,
   C7_first_test_after_clear SVPRenderer.new 5 3 (1/2) (by decide) (by norm_num)⟩

/-- Claim C8, confirmed: whenever the first two screen-space edges of
the transformed vertex list have a non-positive signed cross product,
is_front_facing reports false and draw_polygon returns before touching
anything: the framebuffer and the Z-buffer are unchanged. -/
theorem C8_backface_cull (r : SVPRenderer) (vertices : List Vertex)
    (tu : TextureUnit) (texture_id color : ℕ)
    (h3 : 3 ≤ vertices.length)
    (hcross : SVPRenderer.cross_z (vertices.map r.world_to_screen) ≤ 0) :
    (r.draw_polygon vertices tu texture_id color).framebuffer = r.framebuffer ∧
    (r.draw_polygon vertices tu texture_id color).zbuffer = r.zbuffer := by
  have hff : r.is_front_facing (vertices.map r.world_to_screen) = false := by
    unfold SVPRenderer.is_front_facing
    rw [if_neg (by rw [List.length_map]; omega)]
    exact decide_eq_false (not_lt.mpr hcross)
  unfold SVPRenderer.draw_polygon
  rw [if_neg (show ¬ vertices.length < 3 by omega)]
  simp only [hff]
  rw [if_pos trivial]
  exact ⟨rfl, rfl⟩

/-- A concrete clockwise-on-screen triangle for the C8 witness (the
screen Y flip turns this counter-clockwise world triangle clockwise). -/
def cullTestTriangle : List Vertex :=
  [{ x := 0, y := 0, z := 0, w := 1, u := 0, v := 0, color := 0, intensity := 1 },
   { x := 1, y := 0, z := 0, w := 1, u := 0, v := 0, color := 0, intensity := 1 },
   { x := 0, y := 1, z := 0, w := 1, u := 0, v := 0, color := 0, intensity := 1 }]

/-- Claim C8, witness: drawing the concrete culled triangle on a fresh
renderer leaves the framebuffer and Z-buffer unchanged. -/
theorem C8_backface_cull_witness :
    3 ≤ cullTestTriangle.length ∧
    SVPRenderer.cross_z (cullTestTriangle.map SVPRenderer.new.world_to_screen) ≤ 0 ∧
    ((SVPRenderer.new.draw_polygon cullTestTriangle TextureUnit.new 0 0x7C00).framebuffer
        = SVPRenderer.new.framebuffer ∧
     (SVPRenderer.new.draw_polygon cullTestTriangle TextureUnit.new 0 0x7C00).zbuffer
        = SVPRenderer.new.zbuffer) := by
  have hc : SVPRenderer.cross_z (cullTestTriangle.map SVPRenderer.new.world_to_screen) ≤ 0 := by
    norm_num [cullTestTriangle, SVPRenderer.cross_z, SVPRenderer.world_to_screen,
      Camera.transform_vertex, SVPRenderer.new, List.getD]
  exact ⟨by decide, hc,
    C8_backface_cull SVPRenderer.new cullTestTriangle TextureUnit.new 0 0x7C00
      (by decide) hc⟩

/-! Helper lemmas about the snapshot byte list. -/

/-- The little-endian word block list of n words has 2n bytes. -/
theorem pairs_length (n : ℕ) (g : ℕ → ℕ) :
    ((List.range n).flatMap (fun j => SVP.u16_le_bytes (g j))).length = 2 * n := by
  induction n with
  | zero => simp
  | succ k ih =>
    rw [List.range_succ, List.flatMap_append, List.length_append, ih]
    simp [SVP.u16_le_bytes]
    omega

/-- Indexing the little-endian word block list: byte 2j is the low byte
of word j, byte 2j+1 its high byte. -/
theorem pairs_getD (g : ℕ → ℕ) (n j : ℕ) (h : j < n) :
    ((List.range n).flatMap (fun i => SVP.u16_le_bytes (g i))).getD (2 * j) 0
        = g j % 256 ∧
    ((List.range n).flatMap (fun i => SVP.u16_le_bytes (g i))).getD (2 * j + 1) 0
        = g j / 256 % 256 := by
  induction n with
  | zero => omega
  | succ k ih =>
    rw [List.range_succ, List.flatMap_append]
    by_cases hj : j < k
    · have hlen := pairs_length k g
      rw [List.getD_append _ _ _ _ (by omega), List.getD_append _ _ _ _ (by omega)]
      exact ih hj
    · have hj' : j = k := by omega
      subst hj'
      have hlen := pairs_length j g
      rw [List.getD_append_right _ _ _ _ (by omega),
          List.getD_append_right _ _ _ _ (by omega), hlen]
      constructor
      · rw [show 2 * j - 2 * j = 0 by omega]
        rfl
      · rw [show 2 * j + 1 - 2 * j = 1 by omega]
        rfl

/-- The snapshot is always 3 + 32 + 16384 = 16419 bytes. -/
theorem save_state_length (s : SVP) : s.save_state.length = 16419 := by
  unfold SVP.save_state
  rw [List.length_append, List.length_append, pairs_length, pairs_length]
  rfl

/-- Byte 3 + m of the snapshot lies in the appended register/dram
blocks. -/
theorem save_state_getD_succ3 (s : SVP) (m : ℕ) :
    s.save_state.getD (3 + m) 0 =
      (((List.range 16).flatMap (fun j => SVP.u16_le_bytes (s.regs j))) ++
       ((List.range 8192).flatMap (fun j => SVP.u16_le_bytes (s.dram j)))).getD m 0 := by
  unfold SVP.save_state
  rw [List.append_assoc]
  rw [List.getD_append_right _ _ _ _ (by simp)]
  rw [show 3 + m - [SVP.bool_byte s.enabled, SVP.bool_byte s.running,
    SVP.bool_byte s.irq_pending].length = m by simp]

/-- Claim C2, counterexample: the claim includes the DMA controller
state in the round-trip.  Writing 2 to the DMA-source register makes a
reachable state whose DMA source address is 2; save_state followed by
load_state on a fresh instance returns true but leaves the fresh
instance's DMA source at 0 — the snapshot carries no DMA state. -/
theorem C2_dma_state_not_roundtripped :
    (SVP.write_word SVP.new 0x30002 2).dma.src_addr = 2 ∧
    (SVP.new.load_state (SVP.write_word SVP.new 0x30002 2).save_state).1 = true ∧
    (SVP.new.load_state (SVP.write_word SVP.new 0x30002 2).save_state).2.dma.src_addr = 0 := by
  refine ⟨rfl, ?_, ?_⟩
  · unfold SVP.load_state
    rw [if_neg (by rw [save_state_length]; omega)]
  · unfold SVP.load_state
    rw [if_neg (by rw [save_state_length]; omega)]
    rfl

/-- Claim C2, amended: save_state followed by load_state on a fresh
instance returns true and reproduces the enabled/running/irq flags, the
16 registers, and the 8192-word working memory (each value modulo 2^16,
the width the snapshot stores); the DMA controller state is not part of
the snapshot, so the result keeps the fresh instance's reset DMA
controller (see the counterexample). -/
theorem C2_saved_fields_roundtrip (s : SVP) :
    (SVP.new.load_state s.save_state).1 = true ∧
    (SVP.new.load_state s.save_state).2 =
      (let regs' : ℕ → ℕ := fun j => if j < 16 then s.regs j % 65536 else 0
       let dram' : ℕ → ℕ := fun j => if j < 8192 then s.dram j % 65536 else 0
       { SVP.new with enabled := s.enabled, running := s.running, irq_pending := s.irq_pending, regs := regs', dram := dram' }) := by
  have hB := pairs_length 16 s.regs
  constructor
  · unfold SVP.load_state
    rw [if_neg (by rw [save_state_length]; omega)]
  · unfold SVP.load_state
    rw [if_neg (by rw [save_state_length]; omega)]
    dsimp only
    simp only [SVP.mk.injEq]
    refine ⟨trivial, trivial, trivial, trivial, ?_, trivial, ?_, ?_, ?_, ?_, trivial⟩
    · -- dram
      funext j
      by_cases hj : j < 8192
      · rw [if_pos hj, if_pos hj]
        rw [show 35 + j * 2 + 1 = 3 + (32 + (2 * j + 1)) by omega,
            show 35 + j * 2 = 3 + (32 + 2 * j) by omega,
            save_state_getD_succ3, save_state_getD_succ3]
        rw [List.getD_append_right _ _ _ _ (by omega),
            List.getD_append_right _ _ _ _ (by omega), hB]
        rw [show 32 + (2 * j + 1) - 32 = 2 * j + 1 by omega,
            show 32 + 2 * j - 32 = 2 * j by omega]
        rcases pairs_getD s.dram 8192 j hj with ⟨hlo, hhi⟩
        rw [hlo, hhi, Nat.shiftLeft_eq]
        rw [Nat.mul_comm (s.dram j / 256 % 256) (2 ^ 8)]
        rw [← Nat.mul_add_lt_is_or (show s.dram j % 256 < 2 ^ 8 by omega)]
        omega
      · rw [if_neg hj, if_neg hj]
        rfl
    · -- regs
      funext j
      by_cases hj : j < 16
      · rw [if_pos hj, if_pos hj]
        rw [show 3 + j * 2 + 1 = 3 + (2 * j + 1) by omega,
            show 3 + j * 2 = 3 + 2 * j by omega,
            save_state_getD_succ3, save_state_getD_succ3]
        rw [List.getD_append _ _ _ _ (by omega), List.getD_append _ _ _ _ (by omega)]
        rcases pairs_getD s.regs 16 j hj with ⟨hlo, hhi⟩
        rw [hlo, hhi, Nat.shiftLeft_eq]
        rw [Nat.mul_comm (s.regs j / 256 % 256) (2 ^ 8)]
        rw [← Nat.mul_add_lt_is_or (show s.regs j % 256 < 2 ^ 8 by omega)]
        omega
      · rw [if_neg hj, if_neg hj]
        rfl
    · -- enabled
      have h0 : s.save_state.getD 0 0 = SVP.bool_byte s.enabled := rfl
      rw [h0]
      cases s.enabled <;> rfl
    · -- running
      have h1 : s.save_state.getD 1 0 = SVP.bool_byte s.running := rfl
      rw [h1]
      cases s.running <;> rfl
    · -- irq_pending
      have h2 : s.save_state.getD 2 0 = SVP.bool_byte s.irq_pending := rfl
      rw [h2]
      cases s.irq_pending <;> rfl

end GenesisSVP
